import Mathlib

/-!
# Verification of the e-commerce discount system

Shallow embedding of the discount computation and validation engine:
`discount-rules.ts`, `validation-rules.ts`, `backend/src/promo-code-rules.ts`
and the `POST /api/calculate-discount` handler of `backend/src/server.ts`.
Numbers are modelled as exact rationals; JavaScript `Date` values are
modelled by the fields the code reads (calendar month/day for the
promotional-period check, a numeric timestamp for promo-code validity).
-/

namespace DiscountSys

/-- Customer types recognized by the system (`discount-rules.ts`). -/
inductive CustomerType
  | REGULAR
  | VIP
  | LOYALTY
  | ENTERPRISE
deriving DecidableEq, Repr

/-- The projection of a JavaScript `Date` that `validation-rules.ts` reads:
`getMonth()` (0-based month) and `getDate()` (day of month). -/
structure JSDate where
  month : ℕ
  day : ℕ
deriving DecidableEq, Repr

/-- Input context of `calculateTieredDiscount` (`discount-rules.ts`). -/
structure DiscountContext where
  customerType : CustomerType
  amount : ℚ
  orderDate : JSDate
  isPromotionalPeriod : Bool := false
deriving DecidableEq, Repr

/-- Output breakdown of `calculateTieredDiscount` (`discount-rules.ts`). -/
structure DiscountResult where
  baseDiscount : ℚ
  tierBonus : ℚ
  seasonalMultiplier : ℚ
  totalDiscount : ℚ
  finalAmount : ℚ
  originalAmount : ℚ
  savingsAmount : ℚ
  appliedCap : Bool
deriving DecidableEq, Repr

/-- `getBaseDiscount` from `discount-rules.ts`. -/
def getBaseDiscount : CustomerType → ℚ
  | .ENTERPRISE => 15/100
  | .VIP => 10/100
  | .LOYALTY => 5/100
  | .REGULAR => 0

/-- `getTierBonus` from `discount-rules.ts`. -/
def getTierBonus (amount : ℚ) : ℚ :=
  if 1000 ≤ amount then 10/100
  else if 500 ≤ amount then 5/100
  else 0

/-- `getMaxDiscountForCustomerType` from `discount-rules.ts`
(`none` models the `null` "no cap" sentinel). -/
def getMaxDiscountForCustomerType : CustomerType → Option ℚ
  | .ENTERPRISE => none
  | .VIP => some (60/100)
  | .LOYALTY => some (50/100)
  | .REGULAR => some (40/100)

/-- `calculateTieredDiscount` from `discount-rules.ts`. -/
def calculateTieredDiscount (context : DiscountContext) : DiscountResult :=
  let baseDiscount := getBaseDiscount context.customerType
  let tierBonus := getTierBonus context.amount
  let seasonalMultiplier : ℚ := if context.isPromotionalPeriod then 2 else 1
  let totalDiscount0 := baseDiscount * seasonalMultiplier + tierBonus
  let maxDiscount := getMaxDiscountForCustomerType context.customerType
  let appliedCap : Bool :=
    match maxDiscount with
    | some m => decide (m < totalDiscount0)
    | none => false
  let totalDiscount : ℚ :=
    match maxDiscount with
    | some m => if m < totalDiscount0 then m else totalDiscount0
    | none => totalDiscount0
  let finalAmount := context.amount * (1 - totalDiscount)
  { baseDiscount := baseDiscount
    tierBonus := tierBonus
    seasonalMultiplier := seasonalMultiplier
    totalDiscount := totalDiscount
    finalAmount := finalAmount
    originalAmount := context.amount
    savingsAmount := context.amount - finalAmount
    appliedCap := appliedCap }

/-- The legacy `calculateDiscount` (identical in `discount-rules.ts` and
`backend/src/discount-rules.ts`); customer type is a runtime string. -/
def calculateDiscount (customerType : String) (amount : ℚ) : ℚ :=
  if customerType = "VIP" then amount * (9/10)
  else if customerType = "LOYALTY" then amount * (95/100)
  else if customerType = "ENTERPRISE" then amount * (85/100)
  else amount

/-- `ValidationResult` from `validation-rules.ts`. -/
structure ValidationResult where
  isValid : Bool
  errors : List String
  warnings : List String
deriving DecidableEq, Repr

/-- `checkPromotionalPeriod` from `validation-rules.ts` (month is 0-based). -/
def checkPromotionalPeriod (orderDate : JSDate) : Bool :=
  if orderDate.month = 10 ∧ 24 ≤ orderDate.day ∧ orderDate.day ≤ 30 then true
  else if orderDate.month = 11 ∧ 1 ≤ orderDate.day ∧ orderDate.day ≤ 5 then true
  else if orderDate.month = 11 ∧ 15 ≤ orderDate.day then true
  else false

def validTypeNames : List String := ["REGULAR", "LOYALTY", "VIP", "ENTERPRISE"]

def amountMsg : String := "Order amount must be greater than zero"

def invalidTypeMsg (customerType : String) : String :=
  "Invalid customer type: " ++ customerType ++
    ". Must be one of: REGULAR, LOYALTY, VIP, ENTERPRISE"

def downgradeMsg : String :=
  "Order below $5000 minimum for ENTERPRISE. Applying VIP pricing instead."

def promoMinMsg : String :=
  "Orders under $100 do not qualify for seasonal multiplier during promotions"

def largeOrderMsg : String :=
  "Large order flagged for manual review. Discount will be applied pending approval."

/-- `validateDiscountRequest` from `validation-rules.ts`: all rules run,
errors and warnings accumulate in source order. -/
def validateDiscountRequest (customerType : String) (amount : ℚ) (orderDate : JSDate) :
    ValidationResult :=
  let errors :=
    (if amount ≤ 0 then [amountMsg] else []) ++
    (if ¬ validTypeNames.contains customerType then [invalidTypeMsg customerType] else [])
  let warnings :=
    (if customerType = "ENTERPRISE" ∧ amount < 5000 then [downgradeMsg] else []) ++
    (if checkPromotionalPeriod orderDate ∧ amount < 100 then [promoMinMsg] else []) ++
    (if 50000 < amount then [largeOrderMsg] else [])
  { isValid := errors.isEmpty, errors := errors, warnings := warnings }

/-- `getEffectiveCustomerType` from `validation-rules.ts`. -/
def getEffectiveCustomerType (customerType : CustomerType) (amount : ℚ) : CustomerType :=
  if customerType = .ENTERPRISE ∧ amount < 5000 then .VIP else customerType

/-- `discountType` of a promo code (`promo-code-rules.ts`). -/
inductive DiscountType
  | PERCENTAGE
  | FIXED_AMOUNT
deriving DecidableEq, Repr

/-- `PromoCode` from `promo-code-rules.ts`. `validFrom`/`validUntil` are
numeric timestamps; optional numeric fields are `Option` (JavaScript
`undefined` is `none`). The customer type is a runtime string, as in the
running system. -/
structure PromoCode where
  code : String
  discountType : DiscountType
  discountValue : ℚ
  minOrderAmount : Option ℚ := none
  maxDiscountAmount : Option ℚ := none
  validFrom : ℚ
  validUntil : ℚ
  usageLimit : Option ℕ := none
  usageCount : ℕ := 0
  allowedCustomerTypes : Option (List String) := none
  disablesTierBonuses : Bool
  stacksWithSeasonalMultiplier : Bool
  description : String := ""
  active : Bool
deriving DecidableEq, Repr

/-- JavaScript truthiness of an optional numeric field:
`undefined` and `0` are falsy. -/
def truthyQ : Option ℚ → Bool
  | none => false
  | some v => v != 0

/-- JavaScript truthiness of the optional `usageLimit` counter. -/
def truthyNat : Option ℕ → Bool
  | none => false
  | some v => v != 0

/-- `PromoCodeValidationResult` from `promo-code-rules.ts`. -/
structure PromoCodeValidationResult where
  isValid : Bool
  errors : List String
  warnings : List String
  promoCode : Option PromoCode := none
deriving DecidableEq, Repr

/-- `PromoCodeDiscount` from `promo-code-rules.ts`. -/
structure PromoCodeDiscount where
  promoCode : String
  discountAmount : ℚ
  discountPercentage : ℚ
  appliedAfterTierDiscount : Bool
deriving DecidableEq, Repr

def invalidCodeMsg : String := "Invalid promotional code"

def inactiveMsg : String := "This promotional code is no longer active"

def notYetValidMsg : String := "This promotional code is not yet valid"

def expiredMsg : String := "This promotional code has expired"

def usageLimitMsg : String := "This promotional code has reached its usage limit"

def minOrderMsg (m : ℚ) : String :=
  "Minimum order amount of $" ++ toString m ++ " required for this code"

def allowedTypesMsg (ts : List String) : String :=
  "This promotional code is only available for " ++ String.intercalate ", " ts ++ " customers"

def disablesTierMsg : String :=
  "This promotional code disables tier bonuses. Only base discount and promo code will apply."

def noStackMsg : String :=
  "This promotional code does not stack with seasonal multipliers."

/-- JavaScript `toUpperCase` for the ASCII code strings used by the store
(character-wise upper-casing). -/
def jsToUpper (s : String) : String := String.mk (s.data.map Char.toUpper)

/-- The `promoCodes.get(code.toUpperCase())` lookup of `promo-code-rules.ts`:
the map is keyed by the upper-cased code. -/
def lookupPromo (store : List PromoCode) (code : String) : Option PromoCode :=
  store.find? (fun pc => jsToUpper pc.code == jsToUpper code)

/-- `validatePromoCode` from `promo-code-rules.ts`: a chain of early-return
gate checks, then warnings on success.  `now` models `new Date()`. -/
def validatePromoCode (store : List PromoCode) (now : ℚ) (code : String)
    (customerType : String) (orderAmount : ℚ) : PromoCodeValidationResult :=
  match lookupPromo store code with
  | none => { isValid := false, errors := [invalidCodeMsg], warnings := [] }
  | some pc =>
    if ¬ pc.active then
      { isValid := false, errors := [inactiveMsg], warnings := [] }
    else if now < pc.validFrom then
      { isValid := false, errors := [notYetValidMsg], warnings := [] }
    else if pc.validUntil < now then
      { isValid := false, errors := [expiredMsg], warnings := [] }
    else if truthyNat pc.usageLimit ∧ pc.usageLimit.getD 0 ≤ pc.usageCount then
      { isValid := false, errors := [usageLimitMsg], warnings := [] }
    else if truthyQ pc.minOrderAmount ∧ orderAmount < pc.minOrderAmount.getD 0 then
      { isValid := false, errors := [minOrderMsg (pc.minOrderAmount.getD 0)], warnings := [] }
    else if pc.allowedCustomerTypes.isSome ∧
        ¬ (pc.allowedCustomerTypes.getD []).contains customerType then
      { isValid := false, errors := [allowedTypesMsg (pc.allowedCustomerTypes.getD [])],
        warnings := [] }
    else
      { isValid := true, errors := [],
        warnings :=
          (if pc.disablesTierBonuses then [disablesTierMsg] else []) ++
          (if ¬ pc.stacksWithSeasonalMultiplier then [noStackMsg] else []),
        promoCode := some pc }

/-- JavaScript `Math.min` on two numbers. -/
def jsMin (a b : ℚ) : ℚ := if a ≤ b then a else b

/-- `calculatePromoCodeDiscount` from `promo-code-rules.ts`. -/
def calculatePromoCodeDiscount (pc : PromoCode) (amountAfterTierDiscount : ℚ) :
    PromoCodeDiscount :=
  let d0 : ℚ :=
    match pc.discountType with
    | .PERCENTAGE => amountAfterTierDiscount * (pc.discountValue / 100)
    | .FIXED_AMOUNT => pc.discountValue
  let d1 : ℚ :=
    if truthyQ pc.maxDiscountAmount then jsMin d0 (pc.maxDiscountAmount.getD 0) else d0
  let d2 : ℚ := jsMin d1 amountAfterTierDiscount
  let pct : ℚ := if 0 < amountAfterTierDiscount then d2 / amountAfterTierDiscount * 100 else 0
  { promoCode := pc.code, discountAmount := d2, discountPercentage := pct,
    appliedAfterTierDiscount := true }

/-- `incrementPromoCodeUsage` from `promo-code-rules.ts`: bump the usage
counter of the entry stored under the upper-cased code. -/
def incrementPromoCodeUsage (store : List PromoCode) (code : String) : List PromoCode :=
  store.map (fun pc =>
    if jsToUpper pc.code == jsToUpper code then { pc with usageCount := pc.usageCount + 1 }
    else pc)

/-- `getActivePromoCodes` from `promo-code-rules.ts`. -/
def getActivePromoCodes (store : List PromoCode) (now : ℚ) : List PromoCode :=
  store.filter (fun pc =>
    pc.active && decide (pc.validFrom ≤ now) && decide (now ≤ pc.validUntil) &&
      (!truthyNat pc.usageLimit || decide (pc.usageCount < pc.usageLimit.getD 0)))

/-- The `WELCOME10` sample code loaded at module start (`promo-code-rules.ts`),
parameterized by the load time `now`. -/
def welcome10 (now : ℚ) : PromoCode :=
  { code := "WELCOME10", discountType := .PERCENTAGE, discountValue := 10,
    minOrderAmount := some 50, validFrom := now,
    validUntil := now + 365 * 24 * 60 * 60 * 1000,
    disablesTierBonuses := false, stacksWithSeasonalMultiplier := true,
    description := "Welcome discount - 10% off orders over $50", active := true }

/-- The `SAVE20` sample code (`promo-code-rules.ts`). -/
def save20 (now : ℚ) : PromoCode :=
  { code := "SAVE20", discountType := .FIXED_AMOUNT, discountValue := 20,
    minOrderAmount := some 100, maxDiscountAmount := some 20, validFrom := now,
    validUntil := now + 365 * 24 * 60 * 60 * 1000,
    disablesTierBonuses := false, stacksWithSeasonalMultiplier := true,
    description := "Save $20 on orders over $100", active := true }

/-- The `VIP25` sample code (`promo-code-rules.ts`). -/
def vip25 (now : ℚ) : PromoCode :=
  { code := "VIP25", discountType := .PERCENTAGE, discountValue := 25,
    minOrderAmount := some 200, validFrom := now,
    validUntil := now + 365 * 24 * 60 * 60 * 1000,
    allowedCustomerTypes := some ["VIP", "ENTERPRISE"],
    disablesTierBonuses := true, stacksWithSeasonalMultiplier := false,
    description := "VIP exclusive - 25% off (disables tier bonuses)", active := true }

/-- The `BULK50` sample code (`promo-code-rules.ts`). -/
def bulk50 (now : ℚ) : PromoCode :=
  { code := "BULK50", discountType := .FIXED_AMOUNT, discountValue := 50,
    minOrderAmount := some 500, maxDiscountAmount := some 50, validFrom := now,
    validUntil := now + 365 * 24 * 60 * 60 * 1000, usageLimit := some 100,
    disablesTierBonuses := false, stacksWithSeasonalMultiplier := true,
    description := "Bulk order discount - $50 off orders over $500", active := true }

/-- The `FREESHIP` sample code (`promo-code-rules.ts`). -/
def freeship (now : ℚ) : PromoCode :=
  { code := "FREESHIP", discountType := .FIXED_AMOUNT, discountValue := 15,
    minOrderAmount := some 75, maxDiscountAmount := some 15, validFrom := now,
    validUntil := now + 365 * 24 * 60 * 60 * 1000,
    disablesTierBonuses := false, stacksWithSeasonalMultiplier := true,
    description := "Free shipping equivalent - $15 off orders over $75", active := true }

/-- The store contents after the module-load sample setup of
`promo-code-rules.ts` (its codes are already upper-case, so keying by
`toUpperCase` leaves them unchanged). -/
def samplePromoCodes (now : ℚ) : List PromoCode :=
  [welcome10 now, save20 now, vip25 now, bulk50 now, freeship now]

/-- The body of a `POST /api/calculate-discount` request (`server.ts`).
A missing or empty `customerType`, `customerId` or `promoCode` is the
falsy empty string; a missing or non-numeric `amount` is `none`. -/
structure DiscountRequest where
  customerType : String := ""
  amount : Option ℚ := none
  customerId : String := ""
  saveToHistory : Bool := false
  promoCode : String := ""
deriving DecidableEq, Repr

/-- An order record written by the handler (`server.ts`); the generated
`id` and wall-clock `timestamp` are omitted from the model. -/
structure Order where
  customerType : String
  customerId : String
  originalAmount : ℚ
  discountedAmount : ℚ
  discountPercentage : ℚ
  savingsAmount : ℚ
  promoCode : String
deriving DecidableEq, Repr

/-- The JSON body of a successful calculate-discount response (`server.ts`). -/
structure CalcResponse where
  originalAmount : ℚ
  discountedAmount : ℚ
  discountPercentage : ℚ
  customerType : String
  promoCodeDiscount : Option PromoCodeDiscount
  warnings : List String
deriving DecidableEq, Repr

/-- HTTP outcome of the calculate-discount handler. -/
inductive ServerResponse
  | badRequest (error : String)
  | ok (result : CalcResponse)
deriving DecidableEq, Repr

/-- JavaScript `Math.round`: round half toward positive infinity,
i.e. the floor of `q + 1/2`. -/
def jsRound (q : ℚ) : ℚ := (⌊q + 1/2⌋ : ℚ)

/-- `Math.round(x * 100) / 100`, the 2-decimal rounding of `server.ts`. -/
def roundTo2 (q : ℚ) : ℚ := jsRound (q * 100) / 100

/-- JavaScript `s || d` for strings (empty string is falsy). -/
def jsOr (s d : String) : String := if s = "" then d else s

/-- The `POST /api/calculate-discount` handler of `server.ts`, as a function
of the promo-code store, the current time and the request body.  Returns the
response, the promo-code store after the call, and the list of order records
written to the order history. -/
def handleCalculateDiscount (store : List PromoCode) (now : ℚ) (req : DiscountRequest) :
    ServerResponse × List PromoCode × List Order :=
  if req.customerType = "" ∨ req.amount = none then
    (.badRequest "Invalid request. Required: customerType (string) and amount (number)",
      store, [])
  else
    match req.amount with
    | none =>
      (.badRequest "Invalid request. Required: customerType (string) and amount (number)",
        store, [])
    | some amount =>
      if amount < 0 then (.badRequest "Amount must be non-negative", store, [])
      else
        let tierDiscounted := calculateDiscount req.customerType amount
        if req.promoCode ≠ "" then
          let validation := validatePromoCode store now req.promoCode req.customerType amount
          match validation.promoCode, validation.isValid with
          | some pc, true =>
            let promoDiscount := calculatePromoCodeDiscount pc tierDiscounted
            let discountedAmount := tierDiscounted - promoDiscount.discountAmount
            let pct := if 0 < amount then (amount - discountedAmount) / amount * 100 else 0
            let store1 :=
              if req.saveToHistory then incrementPromoCodeUsage store req.promoCode else store
            let result : CalcResponse :=
              { originalAmount := amount, discountedAmount := discountedAmount,
                discountPercentage := roundTo2 pct, customerType := req.customerType,
                promoCodeDiscount := some promoDiscount, warnings := validation.warnings }
            let orders : List Order :=
              if req.saveToHistory ∧ req.customerId ≠ "" then
                [{ customerType := req.customerType, customerId := req.customerId,
                   originalAmount := amount, discountedAmount := discountedAmount,
                   discountPercentage := result.discountPercentage,
                   savingsAmount := amount - discountedAmount, promoCode := req.promoCode }]
              else []
            (.ok result, store1, orders)
          | _, _ =>
            (.badRequest (jsOr (validation.errors.headD "") "Invalid promo code"), store, [])
        else
          let pct := if 0 < amount then (amount - tierDiscounted) / amount * 100 else 0
          let result : CalcResponse :=
            { originalAmount := amount, discountedAmount := tierDiscounted,
              discountPercentage := roundTo2 pct, customerType := req.customerType,
              promoCodeDiscount := none, warnings := [] }
          let orders : List Order :=
            if req.saveToHistory ∧ req.customerId ≠ "" then
              [{ customerType := req.customerType, customerId := req.customerId,
                 originalAmount := amount, discountedAmount := tierDiscounted,
                 discountPercentage := result.discountPercentage,
                 savingsAmount := amount - tierDiscounted, promoCode := req.promoCode }]
            else []
          (.ok result, store, orders)

/-! ## Helper lemmas -/

theorem ite_lt_eq_min (m x : ℚ) : (if m < x then m else x) = min m x := by
  rcases lt_or_le m x with h | h
  · rw [if_pos h, min_eq_left h.le]
  · rw [if_neg (not_lt.mpr h), min_eq_right h]

theorem jsMin_eq_min (a b : ℚ) : jsMin a b = min a b := (min_def a b).symm

theorem jsRound_eq (q : ℚ) (n : ℤ) (h1 : (n:ℚ) ≤ q + 1/2) (h2 : q + 1/2 < (n:ℚ) + 1) :
    jsRound q = (n : ℚ) := by
  unfold jsRound
  have h3 : ⌊q + 1/2⌋ = n := Int.floor_eq_iff.mpr ⟨h1, by exact_mod_cast h2⟩
  rw [h3]

theorem jsMin_le_right (a b : ℚ) : jsMin a b ≤ b := by
  rw [jsMin_eq_min]
  exact min_le_right a b

/-- The unclamped promo discount: percentage of the tier-discounted amount,
or the flat value (the first branch of `calculatePromoCodeDiscount`). -/
def rawPromoDiscount (pc : PromoCode) (a : ℚ) : ℚ :=
  match pc.discountType with
  | .PERCENTAGE => a * (pc.discountValue / 100)
  | .FIXED_AMOUNT => pc.discountValue

/-- A promo code whose optional numeric fields are all present but zero,
with a nonzero usage count (used to exercise the truthiness behavior). -/
def zeroFieldsCode : PromoCode :=
  { code := "ZERO", discountType := .PERCENTAGE, discountValue := 10,
    minOrderAmount := some 0, maxDiscountAmount := some 0,
    validFrom := 0, validUntil := 100, usageLimit := some 0, usageCount := 7,
    disablesTierBonuses := false, stacksWithSeasonalMultiplier := true, active := true }

/-- The promo-discount breakdown the WELCOME10 example should produce. -/
def welcome10PromoResult : PromoCodeDiscount :=
  { promoCode := "WELCOME10", discountAmount := 9, discountPercentage := 10,
    appliedAfterTierDiscount := true }

/-- The response body the WELCOME10 end-to-end example should produce. -/
def welcome10Response : CalcResponse :=
  { originalAmount := 100, discountedAmount := 81, discountPercentage := 19,
    customerType := "VIP", promoCodeDiscount := some welcome10PromoResult,
    warnings := [] }

/-- Validating WELCOME10 for a VIP $100 order at store-load time succeeds
with no warnings. -/
theorem welcome10_validation :
    validatePromoCode (samplePromoCodes 0) 0 "WELCOME10" "VIP" 100 =
      { isValid := true, errors := [], warnings := [], promoCode := some (welcome10 0) } := by
  have hlook : lookupPromo (samplePromoCodes 0) "WELCOME10" = some (welcome10 0) := rfl
  simp only [validatePromoCode, hlook]
  norm_num [welcome10, truthyNat, truthyQ]

theorem roundTo2_nineteen : roundTo2 19 = 19 := by
  unfold roundTo2
  rw [show (19:ℚ) * 100 = 1900 by norm_num,
    show (1900:ℚ) = ((1900:ℤ):ℚ) by norm_num,
    jsRound_eq ((1900:ℤ):ℚ) 1900 (by norm_num) (by norm_num)]
  norm_num

/-- End to end: VIP $100 with WELCOME10 gives $90 after tier discount and a
final amount of $81. -/
theorem welcome10_endToEnd :
    (handleCalculateDiscount (samplePromoCodes 0) 0
      { customerType := "VIP", amount := some 100, promoCode := "WELCOME10" }).1 =
    .ok welcome10Response := by
  simp only [handleCalculateDiscount]
  norm_num [welcome10_validation, calculateDiscount, calculatePromoCodeDiscount, welcome10,
    truthyQ, jsMin, roundTo2_nineteen, welcome10Response, welcome10PromoResult]
  simp

/-- The six gate checks of promo-code validation, in their fixed order:
each entry is (check passes, error message when it fails). -/
def promoGateChecks (pc : PromoCode) (now : ℚ) (customerType : String) (orderAmount : ℚ) :
    List (Bool × String) :=
  [ (pc.active, inactiveMsg),
    (!decide (now < pc.validFrom), notYetValidMsg),
    (!decide (pc.validUntil < now), expiredMsg),
    (!decide (truthyNat pc.usageLimit = true ∧ pc.usageLimit.getD 0 ≤ pc.usageCount),
      usageLimitMsg),
    (!decide (truthyQ pc.minOrderAmount = true ∧ orderAmount < pc.minOrderAmount.getD 0),
      minOrderMsg (pc.minOrderAmount.getD 0)),
    (!decide (pc.allowedCustomerTypes.isSome = true ∧
        ¬ (pc.allowedCustomerTypes.getD []).contains customerType = true),
      allowedTypesMsg (pc.allowedCustomerTypes.getD [])) ]

/-- Modelled from the spec (§4.3 validation order): after the
case-insensitive existence lookup, the remaining gate checks run in a fixed
order and the first failing check short-circuits with exactly its one
error; on success the two non-blocking policy warnings are attached. -/
def promoGateSpec (store : List PromoCode) (now : ℚ) (code : String)
    (customerType : String) (orderAmount : ℚ) : PromoCodeValidationResult :=
  match lookupPromo store code with
  | none => { isValid := false, errors := [invalidCodeMsg], warnings := [] }
  | some pc =>
    match (promoGateChecks pc now customerType orderAmount).find? (fun g => !g.1) with
    | some g => { isValid := false, errors := [g.2], warnings := [] }
    | none =>
      { isValid := true, errors := [],
        warnings := (if pc.disablesTierBonuses then [disablesTierMsg] else []) ++
          (if ¬ pc.stacksWithSeasonalMultiplier then [noStackMsg] else []),
        promoCode := some pc }

theorem validate_eq_gateSpec (store : List PromoCode) (now : ℚ) (code : String)
    (ct : String) (a : ℚ) :
    validatePromoCode store now code ct a = promoGateSpec store now code ct a := by
  cases hl : lookupPromo store code with
  | none => simp [validatePromoCode, promoGateSpec, hl]
  | some pc =>
    simp only [validatePromoCode, promoGateSpec, hl]
    split_ifs with h1 h2 h3 h4 h5 h6 h7 h8 <;>
      simp_all only [promoGateChecks, List.find?, Bool.not_eq_true, Bool.not_true,
        Bool.not_false, decide_True, decide_False, and_true, true_and, and_false, false_and,
        ite_true, ite_false]

theorem roundTo2_zero : roundTo2 0 = 0 := by
  unfold roundTo2
  rw [show (0:ℚ) * 100 = ((0:ℤ):ℚ) by norm_num,
    jsRound_eq ((0:ℤ):ℚ) 0 (by norm_num) (by norm_num)]
  norm_num

/-- A request whose customer type is not one of the four recognized ones. -/
def bogusRequest : DiscountRequest :=
  { customerType := "BOGUS", amount := some 100, customerId := "c1",
    saveToHistory := true, promoCode := "" }

/-- The 200 response the server actually produces for `bogusRequest`. -/
def bogusResponse : CalcResponse :=
  { originalAmount := 100, discountedAmount := 100, discountPercentage := 0,
    customerType := "BOGUS", promoCodeDiscount := none, warnings := [] }

/-- The order record the server actually persists for `bogusRequest`. -/
def bogusOrder : Order :=
  { customerType := "BOGUS", customerId := "c1", originalAmount := 100,
    discountedAmount := 100, discountPercentage := 0, savingsAmount := 0, promoCode := "" }

/-- The full-price response returned for an unrecognized customer type. -/
def fullPriceResponse (ct : String) (a : ℚ) : CalcResponse :=
  { originalAmount := a, discountedAmount := a, discountPercentage := 0,
    customerType := ct, promoCodeDiscount := none, warnings := [] }

theorem minOrderMsg_ne_usageLimitMsg (m : ℚ) : minOrderMsg m ≠ usageLimitMsg := by
  intro hEq
  have h1 := congrArg String.data hEq
  simp only [minOrderMsg, usageLimitMsg, String.data_append] at h1
  have h3 := congrArg List.head? h1
  simp at h3

theorem allowedTypesMsg_ne_usageLimitMsg (ts : List String) :
    allowedTypesMsg ts ≠ usageLimitMsg := by
  intro hEq
  have h1 := congrArg String.data hEq
  simp only [allowedTypesMsg, usageLimitMsg, String.data_append] at h1
  have h3 := congrArg List.length h1
  simp [List.length_append] at h3

/-- The usage-limit invariant: a truthy (positive) usage limit is never
exceeded by the usage counter. -/
def usageOK (pc : PromoCode) : Bool :=
  match pc.usageLimit with
  | none => true
  | some L => L == 0 || decide (pc.usageCount ≤ L)

/-- Well-formedness of the store list as an image of the `Map` keyed by
upper-cased code: the keys are distinct. -/
def storeKeysNodup (store : List PromoCode) : Prop :=
  (store.map (fun pc => jsToUpper pc.code)).Nodup

/-- The `BULK50` sample code with its usage counter at its limit. -/
def bulkAtLimit : PromoCode := { bulk50 0 with usageCount := 100 }

theorem lookup_eq_of_mem (store : List PromoCode) (code : String) (pc : PromoCode)
    (hnd : storeKeysNodup store) (hmem : pc ∈ store)
    (hkey : jsToUpper pc.code = jsToUpper code) :
    lookupPromo store code = some pc := by
  induction store with
  | nil => cases hmem
  | cons hd tl ih =>
    rcases List.mem_cons.mp hmem with rfl | hmem'
    · simp [lookupPromo, List.find?, hkey]
    · have hnd' : storeKeysNodup tl := (List.nodup_cons.mp hnd).2
      have hne : ¬ (jsToUpper hd.code == jsToUpper code) = true := by
        intro h
        have h2 : jsToUpper pc.code ∈ tl.map (fun q => jsToUpper q.code) :=
          List.mem_map_of_mem _ hmem'
        rw [hkey, ← eq_of_beq h] at h2
        exact (List.nodup_cons.mp hnd).1 h2
      have ihx := ih hnd' hmem'
      simp only [lookupPromo, List.find?] at ihx ⊢
      rw [Bool.of_not_eq_true hne]
      exact ihx

theorem validate_ok_usage (store : List PromoCode) (now : ℚ) (code ct : String) (a : ℚ)
    (pc : PromoCode) (hl : lookupPromo store code = some pc)
    (hv : (validatePromoCode store now code ct a).isValid = true) :
    ∀ L, pc.usageLimit = some L → 0 < L → pc.usageCount < L := by
  intro L hL hLpos
  by_contra hge
  push_neg at hge
  have hcond : truthyNat pc.usageLimit = true ∧ pc.usageLimit.getD 0 ≤ pc.usageCount := by
    refine ⟨?_, ?_⟩
    · simp only [hL, truthyNat]
      simpa using Nat.pos_iff_ne_zero.mp hLpos
    · simpa [hL] using hge
  simp only [validatePromoCode, hl] at hv
  split_ifs at hv

theorem increment_preserves_usageOK (store : List PromoCode) (now : ℚ) (code ct : String)
    (a : ℚ) (hnd : storeKeysNodup store)
    (hinv : ∀ q ∈ store, usageOK q = true)
    (hv : (validatePromoCode store now code ct a).isValid = true) :
    ∀ q ∈ incrementPromoCodeUsage store code, usageOK q = true := by
  intro q hq
  rw [incrementPromoCodeUsage] at hq
  rcases List.mem_map.mp hq with ⟨pc, hpc, heq⟩
  by_cases hkey : (jsToUpper pc.code == jsToUpper code) = true
  · rw [if_pos hkey] at heq
    subst heq
    have hl : lookupPromo store code = some pc :=
      lookup_eq_of_mem store code pc hnd hpc (eq_of_beq hkey)
    have hcnt := validate_ok_usage store now code ct a pc hl hv
    simp only [usageOK]
    cases hL : pc.usageLimit with
    | none => rfl
    | some L =>
      rcases Nat.eq_zero_or_pos L with rfl | hLpos
      · simp
      · have h2 := hcnt L hL hLpos
        simp only [Bool.or_eq_true, decide_eq_true_eq]
        omega
  · rw [if_neg hkey] at heq
    subst heq
    exact hinv pc hpc

/-! ## Claims -/

/-- C1: in a promotional context the calculator uses multiplier 2, the
pre-cap total discount is `base * multiplier + tierBonus` (the tier bonus is
never scaled), capping takes the minimum with the per-type cap, and a VIP
order of $1000 in a promotional period yields pre-cap total 0.30 and
finalAmount $700. -/
theorem C1_seasonal_scales_only_base (ct : CustomerType) (amount : ℚ) (d : JSDate)
    (h : 0 ≤ amount) :
    (calculateTieredDiscount ⟨ct, amount, d, true⟩).seasonalMultiplier = 2 ∧
    (calculateTieredDiscount ⟨ct, amount, d, true⟩).totalDiscount =
      (getMaxDiscountForCustomerType ct).elim
        (getBaseDiscount ct * 2 + getTierBonus amount)
        (fun cap => min cap (getBaseDiscount ct * 2 + getTierBonus amount)) ∧
    (calculateTieredDiscount ⟨.VIP, 1000, d, true⟩).totalDiscount = 3/10 ∧
    (calculateTieredDiscount ⟨.VIP, 1000, d, true⟩).finalAmount = 700 := by
  refine ⟨rfl, ?_, ?_, ?_⟩
  · cases ct <;>
      simp [calculateTieredDiscount, getMaxDiscountForCustomerType, getBaseDiscount,
        Option.elim, ite_lt_eq_min]
  · simp [calculateTieredDiscount, getMaxDiscountForCustomerType, getBaseDiscount,
      getTierBonus]
    norm_num
  · simp [calculateTieredDiscount, getMaxDiscountForCustomerType, getBaseDiscount,
      getTierBonus]
    norm_num

/-- Witness for C1 at the VIP $1000 promotional order. -/
theorem C1_seasonal_scales_only_base_witness :
    (0:ℚ) ≤ 1000 ∧
    ((calculateTieredDiscount ⟨.VIP, 1000, ⟨10, 29⟩, true⟩).seasonalMultiplier = 2 ∧
    (calculateTieredDiscount ⟨.VIP, 1000, ⟨10, 29⟩, true⟩).totalDiscount =
      (getMaxDiscountForCustomerType .VIP).elim
        (getBaseDiscount .VIP * 2 + getTierBonus 1000)
        (fun cap => min cap (getBaseDiscount .VIP * 2 + getTierBonus 1000)) ∧
    (calculateTieredDiscount ⟨.VIP, 1000, ⟨10, 29⟩, true⟩).totalDiscount = 3/10 ∧
    (calculateTieredDiscount ⟨.VIP, 1000, ⟨10, 29⟩, true⟩).finalAmount = 700) :=
  ⟨by norm_num, C1_seasonal_scales_only_base .VIP 1000 ⟨10, 29⟩ (by norm_num)⟩

/-- C2: outside promotional periods, `finalAmount = amount * (1 -
min(base + tierBonus(amount), cap))` with no cap for ENTERPRISE, the tier
bonus takes the documented three values, and `appliedCap` is true exactly
when a cap strictly lowered the total. -/
theorem C2_no_promo_formula (ct : CustomerType) (amount : ℚ) (d : JSDate)
    (h : 0 ≤ amount) :
    (calculateTieredDiscount ⟨ct, amount, d, false⟩).finalAmount =
      amount * (1 - (getMaxDiscountForCustomerType ct).elim
        (getBaseDiscount ct + getTierBonus amount)
        (fun cap => min (getBaseDiscount ct + getTierBonus amount) cap)) ∧
    getMaxDiscountForCustomerType .ENTERPRISE = none ∧
    ((calculateTieredDiscount ⟨ct, amount, d, false⟩).appliedCap = true ↔
      ∃ cap, getMaxDiscountForCustomerType ct = some cap ∧
        cap < getBaseDiscount ct + getTierBonus amount) ∧
    (amount < 500 → getTierBonus amount = 0) ∧
    (500 ≤ amount → amount < 1000 → getTierBonus amount = 5/100) ∧
    (1000 ≤ amount → getTierBonus amount = 10/100) := by
  refine ⟨?_, rfl, ?_, ?_, ?_, ?_⟩
  · cases ct <;>
      simp [calculateTieredDiscount, getMaxDiscountForCustomerType, getBaseDiscount,
        Option.elim, ite_lt_eq_min, min_comm]
  · cases ct <;>
      simp [calculateTieredDiscount, getMaxDiscountForCustomerType, getBaseDiscount]
  · intro h5
    rw [getTierBonus, if_neg (by intro hc; linarith), if_neg (by intro hc; linarith)]
  · intro h5 h10
    rw [getTierBonus, if_neg (by intro hc; linarith), if_pos h5]
  · intro h10
    rw [getTierBonus, if_pos h10]

/-- Witness for C2 at a VIP $750 order outside any promotional period. -/
theorem C2_no_promo_formula_witness :
    (0:ℚ) ≤ 750 ∧
    ((calculateTieredDiscount ⟨.VIP, 750, ⟨0, 1⟩, false⟩).finalAmount =
      750 * (1 - (getMaxDiscountForCustomerType .VIP).elim
        (getBaseDiscount .VIP + getTierBonus 750)
        (fun cap => min (getBaseDiscount .VIP + getTierBonus 750) cap)) ∧
    getMaxDiscountForCustomerType .ENTERPRISE = none ∧
    ((calculateTieredDiscount ⟨.VIP, 750, ⟨0, 1⟩, false⟩).appliedCap = true ↔
      ∃ cap, getMaxDiscountForCustomerType .VIP = some cap ∧
        cap < getBaseDiscount .VIP + getTierBonus 750) ∧
    ((750:ℚ) < 500 → getTierBonus 750 = 0) ∧
    ((500:ℚ) ≤ 750 → (750:ℚ) < 1000 → getTierBonus 750 = 5/100) ∧
    ((1000:ℚ) ≤ 750 → getTierBonus 750 = 10/100)) :=
  ⟨by norm_num, C2_no_promo_formula .VIP 750 ⟨0, 1⟩ (by norm_num)⟩

/-- C4: an ENTERPRISE request with 0 < amount < 5000 is downgraded to VIP
(so the tier calculation is the VIP one), is never rejected (no errors),
emits the downgrade warning exactly once, and — when no other warning rule
applies — that is the only warning. -/
theorem C4_enterprise_downgrade (amount : ℚ) (d : JSDate)
    (h1 : 0 < amount) (h2 : amount < 5000) :
    getEffectiveCustomerType .ENTERPRISE amount = .VIP ∧
    (∀ promo : Bool,
      calculateTieredDiscount ⟨getEffectiveCustomerType .ENTERPRISE amount, amount, d, promo⟩ =
        calculateTieredDiscount ⟨.VIP, amount, d, promo⟩) ∧
    (validateDiscountRequest "ENTERPRISE" amount d).errors = [] ∧
    (validateDiscountRequest "ENTERPRISE" amount d).warnings.count downgradeMsg = 1 ∧
    (¬ (checkPromotionalPeriod d = true ∧ amount < 100) →
      (validateDiscountRequest "ENTERPRISE" amount d).warnings = [downgradeMsg]) := by
  have heff : getEffectiveCustomerType .ENTERPRISE amount = .VIP := by
    rw [getEffectiveCustomerType, if_pos ⟨rfl, h2⟩]
  have herr : (validateDiscountRequest "ENTERPRISE" amount d).errors = [] := by
    simp [validateDiscountRequest, validTypeNames, not_le.mpr h1]
  have hlarge : ¬ (50000:ℚ) < amount := by linarith
  refine ⟨heff, fun promo => by rw [heff], herr, ?_, ?_⟩
  · by_cases hp : checkPromotionalPeriod d = true ∧ amount < 100 <;>
      simp [validateDiscountRequest, hp, h2, hlarge, List.count_cons, downgradeMsg,
        promoMinMsg]
  · intro hp
    simp [validateDiscountRequest, hp, h2, hlarge]

/-- Witness for C4 at an ENTERPRISE $1000 order on a non-promotional date. -/
theorem C4_enterprise_downgrade_witness :
    ((0:ℚ) < 1000 ∧ (1000:ℚ) < 5000) ∧
    (getEffectiveCustomerType .ENTERPRISE 1000 = .VIP ∧
    (∀ promo : Bool,
      calculateTieredDiscount ⟨getEffectiveCustomerType .ENTERPRISE 1000, 1000, ⟨0, 1⟩, promo⟩ =
        calculateTieredDiscount ⟨.VIP, 1000, ⟨0, 1⟩, promo⟩) ∧
    (validateDiscountRequest "ENTERPRISE" 1000 ⟨0, 1⟩).errors = [] ∧
    (validateDiscountRequest "ENTERPRISE" 1000 ⟨0, 1⟩).warnings.count downgradeMsg = 1 ∧
    (¬ (checkPromotionalPeriod ⟨0, 1⟩ = true ∧ (1000:ℚ) < 100) →
      (validateDiscountRequest "ENTERPRISE" 1000 ⟨0, 1⟩).warnings = [downgradeMsg])) :=
  ⟨by norm_num, C4_enterprise_downgrade 1000 ⟨0, 1⟩ (by norm_num) (by norm_num)⟩

/-- C7: validation accumulates all errors (amount=-5 with customerType
"BOGUS" yields exactly the two documented errors, in order), `isValid`
holds exactly when there are no errors, and validity is independent of the
order date (warnings never affect it). -/
theorem C7_validation_accumulates (ct : String) (amount : ℚ) (d d' : JSDate) :
    (validateDiscountRequest "BOGUS" (-5) d).errors.length = 2 ∧
    (validateDiscountRequest "BOGUS" (-5) d).errors = [amountMsg, invalidTypeMsg "BOGUS"] ∧
    ((validateDiscountRequest ct amount d).isValid = true ↔
      (validateDiscountRequest ct amount d).errors = []) ∧
    (validateDiscountRequest ct amount d).isValid =
      (validateDiscountRequest ct amount d').isValid := by
  have herr : (validateDiscountRequest "BOGUS" (-5) d).errors =
      [amountMsg, invalidTypeMsg "BOGUS"] := by
    simp [validateDiscountRequest, validTypeNames]
  refine ⟨by rw [herr]; rfl, herr, ?_, rfl⟩
  simp [validateDiscountRequest, List.isEmpty_iff]

/-- C5: the promo discount base is the tier-discounted amount: percentage
codes take `amountAfterTierDiscount * value/100`, fixed codes the flat
value, then the discount is clamped to `maxDiscountAmount` when a nonzero
limit is set and never exceeds the tier-discounted amount; end to end, a
VIP $100 order with WELCOME10 gives $90 after tier discount, a $9 promo
discount computed on $90, and a final amount of $81. -/
theorem C5_promo_base_is_tier_discounted (pc : PromoCode) (a : ℚ) (h : 0 ≤ a) :
    (pc.discountType = .PERCENTAGE → rawPromoDiscount pc a = a * (pc.discountValue / 100)) ∧
    (pc.discountType = .FIXED_AMOUNT → rawPromoDiscount pc a = pc.discountValue) ∧
    (pc.maxDiscountAmount = none →
      (calculatePromoCodeDiscount pc a).discountAmount = min (rawPromoDiscount pc a) a) ∧
    (∀ m, pc.maxDiscountAmount = some m → m ≠ 0 →
      (calculatePromoCodeDiscount pc a).discountAmount =
        min (min (rawPromoDiscount pc a) m) a) ∧
    (calculatePromoCodeDiscount pc a).discountAmount ≤ a ∧
    calculateDiscount "VIP" 100 = 90 ∧
    (handleCalculateDiscount (samplePromoCodes 0) 0
        { customerType := "VIP", amount := some 100, promoCode := "WELCOME10" }).1 =
      .ok welcome10Response := by
  refine ⟨fun hp => by simp [rawPromoDiscount, hp], fun hp => by simp [rawPromoDiscount, hp],
    ?_, ?_, jsMin_le_right _ _, by norm_num [calculateDiscount], welcome10_endToEnd⟩
  · intro hm
    simp [calculatePromoCodeDiscount, rawPromoDiscount, hm, truthyQ, jsMin_eq_min]
  · intro m hm hm0
    simp [calculatePromoCodeDiscount, rawPromoDiscount, hm, truthyQ, bne_iff_ne, hm0,
      jsMin_eq_min]

/-- Witness for C5 at the SAVE20 sample code on a $150 order. -/
theorem C5_promo_base_is_tier_discounted_witness :
    (0:ℚ) ≤ 150 ∧
    (((save20 0).discountType = .PERCENTAGE →
      rawPromoDiscount (save20 0) 150 = 150 * ((save20 0).discountValue / 100)) ∧
    ((save20 0).discountType = .FIXED_AMOUNT →
      rawPromoDiscount (save20 0) 150 = (save20 0).discountValue) ∧
    ((save20 0).maxDiscountAmount = none →
      (calculatePromoCodeDiscount (save20 0) 150).discountAmount =
        min (rawPromoDiscount (save20 0) 150) 150) ∧
    (∀ m, (save20 0).maxDiscountAmount = some m → m ≠ 0 →
      (calculatePromoCodeDiscount (save20 0) 150).discountAmount =
        min (min (rawPromoDiscount (save20 0) 150) m) 150) ∧
    (calculatePromoCodeDiscount (save20 0) 150).discountAmount ≤ 150 ∧
    calculateDiscount "VIP" 100 = 90 ∧
    (handleCalculateDiscount (samplePromoCodes 0) 0
        { customerType := "VIP", amount := some 100, promoCode := "WELCOME10" }).1 =
      .ok welcome10Response) :=
  ⟨by norm_num, C5_promo_base_is_tier_discounted (save20 0) 150 (by norm_num)⟩

/-- C10: optional promo-code fields set to 0 behave as unset because the
code tests truthiness: with `usageLimit = 0` the usage-limit error is never
reported (any `usageCount`) and the code is still listed as active when its
flag and dates allow; `minOrderAmount = 0` imposes no minimum (the outcome
is independent of the order amount); `maxDiscountAmount = 0` imposes no
clamp. -/
theorem C10_zero_fields_behave_unset (store : List PromoCode) (now : ℚ) (code : String)
    (ct : String) (a : ℚ) (pc : PromoCode) :
    (lookupPromo store code = some pc → pc.usageLimit = some 0 →
      usageLimitMsg ∉ (validatePromoCode store now code ct a).errors) ∧
    (pc ∈ store → pc.usageLimit = some 0 →
      (pc ∈ getActivePromoCodes store now ↔
        pc.active = true ∧ pc.validFrom ≤ now ∧ now ≤ pc.validUntil)) ∧
    (lookupPromo store code = some pc → pc.minOrderAmount = some 0 →
      ∀ a', validatePromoCode store now code ct a = validatePromoCode store now code ct a') ∧
    (pc.maxDiscountAmount = some 0 →
      (calculatePromoCodeDiscount pc a).discountAmount = min (rawPromoDiscount pc a) a) := by
  refine ⟨?_, ?_, ?_, ?_⟩
  · intro hl h0
    simp only [validatePromoCode, hl]
    split_ifs with h1 h2 h3 h4 h5 h6 h7 h8 <;>
      first
        | (simp_all [truthyNat, usageLimitMsg, inactiveMsg, notYetValidMsg, expiredMsg]
           done)
        | (simp only [List.mem_singleton]
           exact fun hc => minOrderMsg_ne_usageLimitMsg _ hc.symm)
        | (simp only [List.mem_singleton]
           exact fun hc => allowedTypesMsg_ne_usageLimitMsg _ hc.symm)
  · intro hmem h0
    simp [getActivePromoCodes, List.mem_filter, hmem, h0, truthyNat, and_assoc]
  · intro hl h0 a'
    simp [validatePromoCode, hl, h0, truthyQ]
  · intro h0
    simp [calculatePromoCodeDiscount, rawPromoDiscount, h0, truthyQ, jsMin_eq_min]

/-- Witness for C10 at a concrete code whose optional fields are all 0. -/
theorem C10_zero_fields_behave_unset_witness :
    lookupPromo [zeroFieldsCode] "ZERO" = some zeroFieldsCode ∧
    zeroFieldsCode ∈ [zeroFieldsCode] ∧
    zeroFieldsCode.usageLimit = some 0 ∧
    zeroFieldsCode.minOrderAmount = some 0 ∧
    zeroFieldsCode.maxDiscountAmount = some 0 ∧
    usageLimitMsg ∉ (validatePromoCode [zeroFieldsCode] 0 "ZERO" "VIP" 10).errors ∧
    (zeroFieldsCode ∈ getActivePromoCodes [zeroFieldsCode] 0 ↔
      zeroFieldsCode.active = true ∧ zeroFieldsCode.validFrom ≤ 0 ∧
        0 ≤ zeroFieldsCode.validUntil) ∧
    validatePromoCode [zeroFieldsCode] 0 "ZERO" "VIP" 10 =
      validatePromoCode [zeroFieldsCode] 0 "ZERO" "VIP" 99999 ∧
    (calculatePromoCodeDiscount zeroFieldsCode 10).discountAmount =
      min (rawPromoDiscount zeroFieldsCode 10) 10 :=
  ⟨by decide, by simp, rfl, rfl, rfl,
    (C10_zero_fields_behave_unset [zeroFieldsCode] 0 "ZERO" "VIP" 10 zeroFieldsCode).1
      (by decide) rfl,
    (C10_zero_fields_behave_unset [zeroFieldsCode] 0 "ZERO" "VIP" 10 zeroFieldsCode).2.1
      (by simp) rfl,
    (C10_zero_fields_behave_unset [zeroFieldsCode] 0 "ZERO" "VIP" 10 zeroFieldsCode).2.2.1
      (by decide) rfl 99999,
    (C10_zero_fields_behave_unset [zeroFieldsCode] 0 "ZERO" "VIP" 10 zeroFieldsCode).2.2.2
      rfl⟩

/-- C6: promo-code validation runs its gate checks in the fixed order of
`promoGateSpec` (case-insensitive existence, active, not-yet-valid /
expired with distinct messages, usage limit, minimum order, allowed
customer types); the first failing check short-circuits with exactly one
error, and success carries exactly the two optional non-blocking
warnings. -/
theorem C6_gate_order_short_circuit (store : List PromoCode) (now : ℚ) (code ct : String)
    (a : ℚ) :
    validatePromoCode store now code ct a = promoGateSpec store now code ct a ∧
    ((validatePromoCode store now code ct a).isValid = false →
      (validatePromoCode store now code ct a).errors.length = 1) ∧
    ((validatePromoCode store now code ct a).isValid = true →
      (validatePromoCode store now code ct a).errors = [] ∧
      ∃ pc, lookupPromo store code = some pc ∧
        (validatePromoCode store now code ct a).warnings =
          (if pc.disablesTierBonuses then [disablesTierMsg] else []) ++
          (if ¬ pc.stacksWithSeasonalMultiplier then [noStackMsg] else [])) := by
  refine ⟨validate_eq_gateSpec store now code ct a, ?_, ?_⟩
  · intro hinv
    rw [validate_eq_gateSpec] at hinv ⊢
    rcases hl : lookupPromo store code with _ | pc
    · simp [promoGateSpec, hl]
    · simp only [promoGateSpec, hl] at hinv ⊢
      rcases hf : (promoGateChecks pc now ct a).find? (fun g => !g.1) with _ | g
      · simp [hf] at hinv
      · simp [hf]
  · intro hval
    rw [validate_eq_gateSpec] at hval ⊢
    rcases hl : lookupPromo store code with _ | pc
    · simp [promoGateSpec, hl] at hval
    · simp only [promoGateSpec, hl] at hval ⊢
      rcases hf : (promoGateChecks pc now ct a).find? (fun g => !g.1) with _ | g
      · simp [hf]
      · simp [hf] at hval

/-- Witness for C6: an unknown code fails with exactly one error, and the
successful WELCOME10 validation carries no error and the spec warnings. -/
theorem C6_gate_order_short_circuit_witness :
    ((validatePromoCode [] 0 "NOPE" "VIP" 10).isValid = false ∧
      (validatePromoCode [] 0 "NOPE" "VIP" 10).errors.length = 1) ∧
    ((validatePromoCode (samplePromoCodes 0) 0 "WELCOME10" "VIP" 100).isValid = true ∧
      ((validatePromoCode (samplePromoCodes 0) 0 "WELCOME10" "VIP" 100).errors = [] ∧
        ∃ pc, lookupPromo (samplePromoCodes 0) "WELCOME10" = some pc ∧
          (validatePromoCode (samplePromoCodes 0) 0 "WELCOME10" "VIP" 100).warnings =
            (if pc.disablesTierBonuses then [disablesTierMsg] else []) ++
            (if ¬ pc.stacksWithSeasonalMultiplier then [noStackMsg] else []))) :=
  ⟨⟨by decide,
    (C6_gate_order_short_circuit [] 0 "NOPE" "VIP" 10).2.1 (by decide)⟩,
   ⟨by rw [welcome10_validation],
    (C6_gate_order_short_circuit (samplePromoCodes 0) 0 "WELCOME10" "VIP" 100).2.2
      (by rw [welcome10_validation])⟩⟩

/-- C9: a promo code with a positive usage limit whose counter has reached
that limit fails the next validation (invalid, and — when the earlier
gates pass — with exactly the usage-limit error); and the server flow,
which increments only after a successful validation, preserves the
invariant that a positive usage limit is never exceeded. -/
theorem C9_usage_limit_exhaustion (store : List PromoCode) (now : ℚ) (code ct : String)
    (a : ℚ) (pc : PromoCode) (L : ℕ) (req : DiscountRequest) :
    (lookupPromo store code = some pc → pc.usageLimit = some L → 0 < L →
      L ≤ pc.usageCount →
      ((validatePromoCode store now code ct a).isValid = false ∧
        (pc.active = true → ¬ now < pc.validFrom → ¬ pc.validUntil < now →
          (validatePromoCode store now code ct a).errors = [usageLimitMsg]))) ∧
    (storeKeysNodup store → (∀ q ∈ store, usageOK q = true) →
      ∀ q ∈ (handleCalculateDiscount store now req).2.1, usageOK q = true) := by
  constructor
  · intro hl hL hLpos hge
    have hcond : truthyNat pc.usageLimit = true ∧ pc.usageLimit.getD 0 ≤ pc.usageCount := by
      refine ⟨?_, ?_⟩
      · simp only [hL, truthyNat]
        simpa using Nat.pos_iff_ne_zero.mp hLpos
      · simpa [hL] using hge
    constructor
    · simp only [validatePromoCode, hl]
      split_ifs <;> rfl
    · intro hact hnyv hnex
      simp only [validatePromoCode, hl]
      rw [if_neg (by simp [hact]), if_neg hnyv, if_neg hnex, if_pos hcond]
  · intro hnd hinv
    simp only [handleCalculateDiscount]
    split
    · exact hinv
    · split
      · exact hinv
      · split
        · exact hinv
        · split
          · split
            · rename_i hsome hvalid
              dsimp only
              split
              · rename_i hsave
                exact increment_preserves_usageOK store now req.promoCode req.customerType
                  _ hnd hinv hvalid
              · exact hinv
            · exact hinv
          · exact hinv

/-- Witness for C9 at BULK50 with its counter at the limit of 100. -/
theorem C9_usage_limit_exhaustion_witness :
    ((validatePromoCode [bulkAtLimit] 0 "BULK50" "VIP" 600).isValid = false ∧
      (validatePromoCode [bulkAtLimit] 0 "BULK50" "VIP" 600).errors = [usageLimitMsg]) ∧
    (∀ q ∈ (handleCalculateDiscount [bulkAtLimit] 0
        { customerType := "VIP", amount := some 600, customerId := "c1",
          saveToHistory := true, promoCode := "BULK50" }).2.1, usageOK q = true) := by
  have T := C9_usage_limit_exhaustion [bulkAtLimit] 0 "BULK50" "VIP" 600 bulkAtLimit 100
    { customerType := "VIP", amount := some 600, customerId := "c1",
      saveToHistory := true, promoCode := "BULK50" }
  have h1 := T.1 rfl rfl (by norm_num) (by norm_num [bulkAtLimit, bulk50])
  refine ⟨⟨h1.1, h1.2 rfl ?_ ?_⟩, T.2 ?_ ?_⟩
  · norm_num [bulkAtLimit, bulk50]
  · norm_num [bulkAtLimit, bulk50]
  · simp [storeKeysNodup]
  · intro q hq
    simp only [List.mem_singleton] at hq
    subst hq
    decide

/-- C8 (counterexample): a request with the unrecognized customer type
"BOGUS" and amount 100 is NOT rejected: the handler answers 200 with the
full price as discountedAmount and records an order. -/
theorem C8_counterexample_bogus_accepted :
    handleCalculateDiscount [] 0 bogusRequest = (.ok bogusResponse, [], [bogusOrder]) ∧
    validTypeNames.contains "BOGUS" = false := by
  constructor
  · simp only [handleCalculateDiscount, bogusRequest]
    norm_num [calculateDiscount, bogusResponse, bogusOrder, roundTo2_zero]
    simp [sub_self, roundTo2_zero]
  · decide

/-- C8 (amended): a missing/empty customerType or a missing/non-numeric
amount is rejected with the descriptive required-fields error, a negative
amount with the non-negative error — in both cases with no computation, no
store change and no order recorded; but an unrecognized non-empty
customerType is not rejected: the discount is computed at the REGULAR rate
(full price). -/
theorem C8_amended_rejections (store : List PromoCode) (now : ℚ) (req : DiscountRequest) :
    (req.customerType = "" ∨ req.amount = none →
      handleCalculateDiscount store now req =
        (.badRequest "Invalid request. Required: customerType (string) and amount (number)",
          store, [])) ∧
    (∀ a, req.amount = some a → a < 0 → req.customerType ≠ "" →
      handleCalculateDiscount store now req =
        (.badRequest "Amount must be non-negative", store, [])) ∧
    (∀ a, req.amount = some a → 0 ≤ a → req.customerType ≠ "" →
      validTypeNames.contains req.customerType = false → req.promoCode = "" →
      (handleCalculateDiscount store now req).1 = .ok (fullPriceResponse req.customerType a)) := by
  refine ⟨?_, ?_, ?_⟩
  · intro h
    simp only [handleCalculateDiscount]
    rw [if_pos h]
  · intro a ha hneg hct
    simp [handleCalculateDiscount, ha, hct, hneg]
  · intro a ha hpos hct hbad hpc
    have hv : req.customerType ≠ "VIP" := by
      intro h; rw [h] at hbad; simp [validTypeNames] at hbad
    have hlo : req.customerType ≠ "LOYALTY" := by
      intro h; rw [h] at hbad; simp [validTypeNames] at hbad
    have hen : req.customerType ≠ "ENTERPRISE" := by
      intro h; rw [h] at hbad; simp [validTypeNames] at hbad
    simp [handleCalculateDiscount, ha, hct, hpc, not_lt.mpr hpos, calculateDiscount,
      hv, hlo, hen, sub_self, roundTo2_zero, fullPriceResponse]

/-- Witness for the amended C8 on the three rejection/acceptance shapes. -/
theorem C8_amended_rejections_witness :
    handleCalculateDiscount [] 0 { customerType := "", amount := none } =
      (.badRequest "Invalid request. Required: customerType (string) and amount (number)",
        [], []) ∧
    handleCalculateDiscount [] 0 { customerType := "VIP", amount := some (-1) } =
      (.badRequest "Amount must be non-negative", [], []) ∧
    (handleCalculateDiscount [] 0 { customerType := "BOGUS", amount := some 50 }).1 =
      .ok (fullPriceResponse "BOGUS" 50) :=
  ⟨(C8_amended_rejections [] 0 { customerType := "", amount := none }).1 (Or.inl rfl),
   (C8_amended_rejections [] 0 { customerType := "VIP", amount := some (-1) }).2.1
     (-1) rfl (by norm_num) (by decide),
   (C8_amended_rejections [] 0 { customerType := "BOGUS", amount := some 50 }).2.2
     50 rfl (by norm_num) (by decide) (by decide) rfl⟩

/-- C3 (code evaluation): on an ENTERPRISE $10000 order inside the
Holiday-Season window (Dec 20, i.e. month index 11, day 20), the code uses
the hardcoded multiplier 2.0 — not the documented period multiplier 1.5 —
giving total discount 0.40 and finalAmount $6000 instead of the documented
0.325 and $6750. -/
theorem C3_holiday_enterprise_code_eval :
    checkPromotionalPeriod ⟨11, 20⟩ = true ∧
    calculateTieredDiscount ⟨.ENTERPRISE, 10000, ⟨11, 20⟩, true⟩ =
      { baseDiscount := 3/20, tierBonus := 1/10, seasonalMultiplier := 2,
        totalDiscount := 2/5, finalAmount := 6000, originalAmount := 10000,
        savingsAmount := 4000, appliedCap := false } := by
  constructor
  · decide
  · simp [calculateTieredDiscount, getMaxDiscountForCustomerType, getBaseDiscount,
      getTierBonus]
    norm_num

end DiscountSys
